import Mathlib

/-!
Shallow embedding of `src/object/PhysicsPositioning.py` (BlenderProc).

The module drives a rigid-body simulation: `run` enrolls all mesh objects as
rigid bodies, runs `_do_simulation` (an adaptive bake loop), applies the
returned pose snapshot with `_set_pose`, and de-enrolls the bodies.
`_have_objects_stopped_moving` compares two pose snapshots axis by axis
against configured thresholds; `_get_pose` captures the poses of all ACTIVE
mesh rigid bodies.

Coordinates and thresholds are modelled over `ℚ` (the Python code uses
floats; every property checked here is an order-theoretic one that does not
depend on rounding).  Python dicts become association lists, Blender scene
state becomes an explicit list of scene objects, and the opaque physics
backend becomes an oracle `poseAt : Int → Snapshot` giving the captured
snapshot at each frame, plus an event trace recording the commands issued
to the backend.
-/

/-- A 3-vector of rationals (models `mathutils.Vector` of length 3). -/
structure Vec3 where
  x : ℚ
  y : ℚ
  z : ℚ
deriving DecidableEq, Repr

/-- Componentwise subtraction, as used on `mathutils` vectors. -/
def Vec3.sub (a b : Vec3) : Vec3 :=
  ⟨a.x - b.x, a.y - b.y, a.z - b.z⟩

/-- Returns `true` iff some component is strictly greater than `t`. -/
def Vec3.anyGt (v : Vec3) (t : ℚ) : Bool :=
  decide (v.x > t) || decide (v.y > t) || decide (v.z > t)

/-- One entry of a pose snapshot: `{'location': ..., 'rotation': ...}`. -/
structure Pose where
  location : Vec3
  rotation : Vec3
deriving DecidableEq, Repr

/-- A pose snapshot: the dict `{obj_name: {'location': ..., 'rotation': ...}}`,
as an association list in dict insertion order. -/
abbrev Snapshot := List (String × Pose)

/-- The inner `for i in range(3): if diff[i] > threshold: stopped = False`
loop of `_have_objects_stopped_moving`, unrolled over the three axes. -/
def axisLoop (diff : Vec3) (threshold : ℚ) (stopped : Bool) : Bool :=
  let s1 := if diff.x > threshold then false else stopped
  let s2 := if diff.y > threshold then false else s1
  if diff.z > threshold then false else s2

/-- The `for obj_name in last_poses` loop of `_have_objects_stopped_moving`,
carrying the mutable `stopped` flag.  `new_poses[obj_name]` is a dict lookup;
a missing key raises `KeyError`, modelled by `none`.  `if not stopped: break`
followed by `return stopped` becomes the early `some s2` return. -/
def have_objects_stopped_moving_go (new_poses : Snapshot) (locTol rotTol : ℚ) :
    Snapshot → Bool → Option Bool
  | [], stopped => some stopped
  | (obj_name, pose) :: rest, stopped =>
    match new_poses.lookup obj_name with
    | none => none
    | some npose =>
      let s1 := axisLoop (pose.location.sub npose.location) locTol stopped
      let s2 := axisLoop (pose.rotation.sub npose.rotation) rotTol s1
      if s2 = false then some s2
      else have_objects_stopped_moving_go new_poses locTol rotTol rest s2

/-- Models `PhysicsPositioning._have_objects_stopped_moving(last_poses, new_poses)`:
`stopped` starts `True`; for each object the signed per-axis differences
`last - new` of location and rotation are compared against the thresholds;
returns `none` on a `KeyError` (key of `last_poses` missing in `new_poses`). -/
def have_objects_stopped_moving (last_poses new_poses : Snapshot)
    (locTol rotTol : ℚ) : Option Bool :=
  have_objects_stopped_moving_go new_poses locTol rotTol last_poses true

/-- Returns `true` iff some axis of the signed location difference `p - q` exceeds
`locTol`, or some axis of the signed rotation difference exceeds `rotTol`. -/
def poseExceeds (p q : Pose) (locTol rotTol : ℚ) : Bool :=
  (p.location.sub q.location).anyGt locTol ||
    (p.rotation.sub q.rotation).anyGt rotTol

/-- Specification-side settle check: every object of `last_poses` passes the
signed per-axis comparison against its entry in `new_poses`. -/
def stoppedMovingSpec (last_poses new_poses : Snapshot) (locTol rotTol : ℚ) : Bool :=
  last_poses.all fun np =>
    match new_poses.lookup np.1 with
    | some q => !(poseExceeds np.2 q locTol rotTol)
    | none => true

lemma axisLoop_eq (v : Vec3) (t : ℚ) (s : Bool) :
    axisLoop v t s = (s && !(v.anyGt t)) := by
  by_cases h1 : v.x > t <;> by_cases h2 : v.y > t <;> by_cases h3 : v.z > t <;>
    simp [axisLoop, Vec3.anyGt, h1, h2, h3]

lemma stopped_go_eq (new_poses : Snapshot) (lt rt : ℚ) :
    ∀ l : Snapshot, (∀ np ∈ l, (new_poses.lookup np.1).isSome) →
      have_objects_stopped_moving_go new_poses lt rt l true =
        some (stoppedMovingSpec l new_poses lt rt)
  | [], _ => rfl
  | (n, p) :: rest, h => by
    obtain ⟨q, hq⟩ : ∃ q, new_poses.lookup n = some q :=
      Option.isSome_iff_exists.mp (h (n, p) (List.mem_cons_self _ _))
    have hrest : ∀ np ∈ rest, (new_poses.lookup np.1).isSome :=
      fun np hm => h np (List.mem_cons_of_mem _ hm)
    have hs2 : axisLoop (p.rotation.sub q.rotation) rt
        (axisLoop (p.location.sub q.location) lt true) =
        !(poseExceeds p q lt rt) := by
      simp [axisLoop_eq, poseExceeds, Bool.and_comm]
    simp only [have_objects_stopped_moving_go, hq, hs2]
    cases hpe : poseExceeds p q lt rt with
    | true =>
      simp [stoppedMovingSpec, hq, hpe]
    | false =>
      simp only [hpe, Bool.not_false, if_neg (by simp : ¬ (true = false))]
      rw [stopped_go_eq new_poses lt rt rest hrest]
      simp [stoppedMovingSpec, hq, hpe]

lemma lookup_self_of_nodup :
    ∀ l : Snapshot, (l.map Prod.fst).Nodup → ∀ np ∈ l, l.lookup np.1 = some np.2
  | [], _, np, hm => absurd hm (List.not_mem_nil np)
  | (n, p) :: rest, hn, np, hm => by
    rw [List.map_cons, List.nodup_cons] at hn
    rcases List.mem_cons.mp hm with h | h
    · subst h
      simp [List.lookup]
    · have hne : np.1 ≠ n := by
        intro he
        have hmem : np.1 ∈ rest.map Prod.fst := List.mem_map_of_mem Prod.fst h
        rw [he] at hmem
        exact hn.1 hmem
      have hbeq : (np.1 == n) = false := beq_eq_false_iff_ne.mpr hne
      simp only [List.lookup, hbeq]
      exact lookup_self_of_nodup rest hn.2 np h

/-- Claim C1 (counterexample): a snapshot pair over the same single key whose
location differs by `1` in absolute value on the x-axis (far beyond the
tolerance `1/100`) is nevertheless reported as settled, because
`_have_objects_stopped_moving` compares the signed difference `last - new`,
not its absolute value, against the threshold. -/
theorem C1_counterexample :
    (1 : ℚ)/100 < |(0 : ℚ) - 1| ∧
    have_objects_stopped_moving
      [("a", ⟨⟨0, 0, 0⟩, ⟨0, 0, 0⟩⟩)]
      [("a", ⟨⟨1, 0, 0⟩, ⟨0, 0, 0⟩⟩)]
      (1/100) (1/100) = some true := by
  constructor
  · norm_num
  · norm_num [have_objects_stopped_moving, have_objects_stopped_moving_go,
      List.lookup, axisLoop, Vec3.sub]

/-- Claim C1 (amended): for snapshots whose `prev` keys all occur in `curr`,
`_have_objects_stopped_moving` returns `false` iff some object's SIGNED
per-axis difference `prev - curr` of location or rotation exceeds the
respective tolerance, and `true` otherwise; absolute values are not taken,
so arbitrarily large negative differences pass. -/
theorem C1_amended (prev curr : Snapshot) (lt rt : ℚ)
    (h : ∀ np ∈ prev, (curr.lookup np.1).isSome) :
    (have_objects_stopped_moving prev curr lt rt = some false ↔
      ∃ np ∈ prev, ∃ q, curr.lookup np.1 = some q ∧
        poseExceeds np.2 q lt rt = true) ∧
    (have_objects_stopped_moving prev curr lt rt = some true ↔
      ∀ np ∈ prev, ∀ q, curr.lookup np.1 = some q →
        poseExceeds np.2 q lt rt = false) := by
  rw [have_objects_stopped_moving, stopped_go_eq curr lt rt prev h]
  have hspec : stoppedMovingSpec prev curr lt rt = true ↔
      ∀ np ∈ prev, ∀ q, curr.lookup np.1 = some q →
        poseExceeds np.2 q lt rt = false := by
    rw [stoppedMovingSpec, List.all_eq_true]
    constructor
    · intro hall np hm q hq
      have := hall np hm
      rw [hq] at this
      simpa using this
    · intro hall np hm
      obtain ⟨q, hq⟩ := Option.isSome_iff_exists.mp (h np hm)
      rw [hq]
      simpa using hall np hm q hq
  constructor
  · rw [Option.some_inj]
    rw [← Bool.not_eq_true, hspec]
    push_neg
    constructor
    · rintro ⟨np, hm, q, hq, hne⟩
      exact ⟨np, hm, q, hq, by simpa using hne⟩
    · rintro ⟨np, hm, q, hq, htrue⟩
      exact ⟨np, hm, q, hq, by simp [htrue]⟩
  · rw [Option.some_inj, hspec]

/-- Witness for `C1_amended` at a concrete input. -/
theorem C1_amended_witness :
    have_objects_stopped_moving
      [("a", ⟨⟨0, 0, 0⟩, ⟨0, 0, 0⟩⟩)] [("a", ⟨⟨1, 0, 0⟩, ⟨0, 0, 0⟩⟩)] 0 0
        = some true ↔
      ∀ np ∈ ([("a", (⟨⟨0, 0, 0⟩, ⟨0, 0, 0⟩⟩ : Pose))] : Snapshot), ∀ q,
        ([("a", (⟨⟨1, 0, 0⟩, ⟨0, 0, 0⟩⟩ : Pose))] : Snapshot).lookup np.1
          = some q →
        poseExceeds np.2 q 0 0 = false :=
  (C1_amended _ _ 0 0 (by decide)).2

/-- Claim C9: on identical snapshots with duplicate-free keys (a Python dict
always has duplicate-free keys) and non-negative tolerances,
`_have_objects_stopped_moving` returns `true`: every signed difference is `0`,
which never exceeds a non-negative threshold. -/
theorem C9_reflexive (P : Snapshot) (lt rt : ℚ)
    (hn : (P.map Prod.fst).Nodup) (hl : 0 ≤ lt) (hr : 0 ≤ rt) :
    have_objects_stopped_moving P P lt rt = some true := by
  have h : ∀ np ∈ P, (P.lookup np.1).isSome := by
    intro np hm
    rw [lookup_self_of_nodup P hn np hm]
    rfl
  rw [have_objects_stopped_moving, stopped_go_eq P lt rt P h, Option.some_inj]
  rw [stoppedMovingSpec, List.all_eq_true]
  intro np hm
  rw [lookup_self_of_nodup P hn np hm]
  have hzero : ∀ v : Vec3, v.sub v = ⟨0, 0, 0⟩ := by
    intro v
    simp [Vec3.sub]
  simp [poseExceeds, hzero, Vec3.anyGt, not_lt.mpr hl, not_lt.mpr hr]

/-- Witness for `C9_reflexive` at a concrete input. -/
theorem C9_reflexive_witness :
    have_objects_stopped_moving
      [("a", ⟨⟨1, 2, 3⟩, ⟨4, 5, 6⟩⟩)] [("a", ⟨⟨1, 2, 3⟩, ⟨4, 5, 6⟩⟩)] 0 0
      = some true :=
  C9_reflexive _ 0 0 (by simp) le_rfl le_rfl

/-- Commands issued to the opaque Blender physics backend, in order. -/
inductive SimEvent where
  /-- Models `point_cache.frame_start = 1` (together with the later `frame_end`
  assignment this configures the bake range). -/
  | setFrameStart (frame : Int)
  /-- Models `point_cache.frame_end = n` followed by `bpy.ops.ptcache.bake(..., bake=True)`. -/
  | bake (frameEnd : Int)
  /-- Models `bpy.context.scene.frame_set(n)`. -/
  | setFrame (frame : Int)
  /-- Models `bpy.ops.ptcache.free_bake(...)`. -/
  | freeBake
deriving DecidableEq, Repr

/-- Python exceptions `_do_simulation` can raise. -/
inductive SimError where
  /-- the explicit `raise Exception("max_simulation_iterations has to be
  bigger than min_simulation_iterations")` (the spec's `ConfigurationError`). -/
  | configError
  /-- Models the `ValueError` from `range(min, max, 0)`. -/
  | valueError
  /-- Models the `NameError`/`UnboundLocalError`: `return last_frame_poses` with the loop
  body never executed. -/
  | nameError
  /-- Models the `KeyError` propagated out of `_have_objects_stopped_moving`. -/
  | keyError
deriving DecidableEq, Repr

/-- The configuration options read by `PhysicsPositioning`, with the source's
names (defaults: 100, 1000, 100, 0.01, 0.01). -/
structure PhysicsConfig where
  min_simulation_iterations : Int
  max_simulation_iterations : Int
  simulation_iterations_increase_step : Int
  object_stopped_location_threshold : ℚ
  object_stopped_rotation_threshold : ℚ
deriving DecidableEq, Repr

/-- Length of Python's `range(lo, hi, step)` for `step ≠ 0`:
`max 0 (ceil((hi-lo)/step))`, written with `Int.toNat` clamping. -/
def pythonRangeLen (lo hi step : Int) : Nat :=
  if 0 < step then (hi - lo + step - 1).toNat / step.toNat
  else (lo - hi - step - 1).toNat / (-step).toNat

/-- Python's `range(lo, hi, step)` as a list; `none` models the `ValueError`
raised by `range` when `step = 0`. -/
def pythonRange (lo hi step : Int) : Option (List Int) :=
  if step = 0 then none
  else some ((List.range (pythonRangeLen lo hi step)).map
    fun i : Nat => lo + step * (i : Int))

/-- The `for simulation_iterations in range(...)` loop of `_do_simulation`.
Arguments: remaining loop values, event trace so far, and the current value of
the local `last_frame_poses` (`none` = still unbound).  Each iteration bakes
up to the target frame, captures poses at the second-to-last and last frame
(`poseAt` is the oracle for `_get_pose` after `frame_set`), frees the bake,
and breaks if `_have_objects_stopped_moving` returns `True`.  After the loop,
`return last_frame_poses` raises a name error if the body never ran. -/
def simLoop (cfg : PhysicsConfig) (poseAt : Int → Snapshot) :
    List Int → List SimEvent → Option Snapshot →
    List SimEvent × Except SimError Snapshot
  | [], ev, none => (ev, Except.error SimError.nameError)
  | [], ev, some last_frame_poses => (ev, Except.ok last_frame_poses)
  | simulation_iterations :: rest, ev, _ =>
    let ev2 := ev ++ [SimEvent.bake simulation_iterations,
      SimEvent.setFrame (simulation_iterations - 1),
      SimEvent.setFrame simulation_iterations, SimEvent.freeBake]
    let second_last_frame_poses := poseAt (simulation_iterations - 1)
    let last_frame_poses := poseAt simulation_iterations
    match have_objects_stopped_moving second_last_frame_poses last_frame_poses
        cfg.object_stopped_location_threshold
        cfg.object_stopped_rotation_threshold with
    | none => (ev2, Except.error SimError.keyError)
    | some true => (ev2, Except.ok last_frame_poses)
    | some false => simLoop cfg poseAt rest ev2 (some last_frame_poses)

/-- Models `PhysicsPositioning._do_simulation`: sets `point_cache.frame_start = 1`,
validates `min < max` (raising otherwise), then runs the stepped bake loop.
Returns the backend event trace and either the final snapshot or the raised
exception. -/
def do_simulation (cfg : PhysicsConfig) (poseAt : Int → Snapshot) :
    List SimEvent × Except SimError Snapshot :=
  let ev0 := [SimEvent.setFrameStart 1]
  if cfg.min_simulation_iterations ≥ cfg.max_simulation_iterations then
    (ev0, Except.error SimError.configError)
  else
    match pythonRange cfg.min_simulation_iterations
        cfg.max_simulation_iterations cfg.simulation_iterations_increase_step with
    | none => (ev0, Except.error SimError.valueError)
    | some frames => simLoop cfg poseAt frames ev0 none

/-- Number of bake commands in a backend event trace. -/
def countBakes (ev : List SimEvent) : Nat :=
  (ev.filter fun e => match e with | SimEvent.bake _ => true | _ => false).length

lemma countBakes_append (a b : List SimEvent) :
    countBakes (a ++ b) = countBakes a + countBakes b := by
  simp [countBakes, List.filter_append]

lemma simLoop_ne_configError (cfg : PhysicsConfig) (poseAt : Int → Snapshot) :
    ∀ (frames : List Int) (ev : List SimEvent) (acc : Option Snapshot),
      (simLoop cfg poseAt frames ev acc).2 ≠ Except.error SimError.configError
  | [], ev, none => by simp [simLoop]
  | [], ev, some last => by simp [simLoop]
  | s :: rest, ev, acc => by
    rw [simLoop]
    cases have_objects_stopped_moving (poseAt (s - 1)) (poseAt s)
        cfg.object_stopped_location_threshold
        cfg.object_stopped_rotation_threshold with
    | none => simp
    | some b =>
      cases b with
      | true => simp
      | false =>
        simp only []
        exact simLoop_ne_configError cfg poseAt rest _ _

lemma countBakes_simLoop (cfg : PhysicsConfig) (poseAt : Int → Snapshot) :
    ∀ (frames : List Int) (ev : List SimEvent) (acc : Option Snapshot),
      countBakes (simLoop cfg poseAt frames ev acc).1 ≤
        countBakes ev + frames.length
  | [], ev, none => by simp [simLoop]
  | [], ev, some last => by simp [simLoop]
  | s :: rest, ev, acc => by
    rw [simLoop]
    cases have_objects_stopped_moving (poseAt (s - 1)) (poseAt s)
        cfg.object_stopped_location_threshold
        cfg.object_stopped_rotation_threshold with
    | none => simp [countBakes_append, countBakes]
    | some b =>
      cases b with
      | true => simp [countBakes_append, countBakes]
      | false =>
        simp only [List.length_cons]
        calc countBakes (simLoop cfg poseAt rest
              (ev ++ [SimEvent.bake s, SimEvent.setFrame (s - 1),
                SimEvent.setFrame s, SimEvent.freeBake]) (some (poseAt s))).1
            ≤ countBakes (ev ++ [SimEvent.bake s, SimEvent.setFrame (s - 1),
                SimEvent.setFrame s, SimEvent.freeBake]) + rest.length :=
              countBakes_simLoop cfg poseAt rest _ _
          _ = countBakes ev + 1 + rest.length := by
              simp [countBakes_append, countBakes]
          _ ≤ countBakes ev + (rest.length + 1) := by omega

/-- Claim C2: `_do_simulation` raises the configuration error iff
`min_simulation_iterations ≥ max_simulation_iterations`, and when it does,
the only backend command already issued is the `frame_start` assignment —
in particular no bake command. -/
theorem C2_config_error (cfg : PhysicsConfig) (poseAt : Int → Snapshot) :
    ((do_simulation cfg poseAt).2 = Except.error SimError.configError ↔
      cfg.min_simulation_iterations ≥ cfg.max_simulation_iterations) ∧
    (cfg.min_simulation_iterations ≥ cfg.max_simulation_iterations →
      (do_simulation cfg poseAt).1 = [SimEvent.setFrameStart 1]) := by
  by_cases hge : cfg.min_simulation_iterations ≥ cfg.max_simulation_iterations
  · constructor
    · simp [do_simulation, if_pos hge, hge]
    · intro _
      simp [do_simulation, if_pos hge]
  · constructor
    · constructor
      · intro hres
        exfalso
        rw [do_simulation, if_neg hge] at hres
        cases hr : pythonRange cfg.min_simulation_iterations
            cfg.max_simulation_iterations
            cfg.simulation_iterations_increase_step with
        | none => rw [hr] at hres; simp at hres
        | some frames =>
          rw [hr] at hres
          exact simLoop_ne_configError cfg poseAt frames _ none hres
      · intro hge2
        exact absurd hge2 hge
    · intro hge2
      exact absurd hge2 hge

/-- Witness for `C2_config_error` at a concrete input. -/
theorem C2_config_error_witness :
    (do_simulation ⟨5, 3, 1, 0, 0⟩ (fun _ => [])).2
        = Except.error SimError.configError ∧
    (do_simulation ⟨5, 3, 1, 0, 0⟩ (fun _ => [])).1
        = [SimEvent.setFrameStart 1] :=
  ⟨(C2_config_error ⟨5, 3, 1, 0, 0⟩ (fun _ => [])).1.mpr (by decide),
    (C2_config_error ⟨5, 3, 1, 0, 0⟩ (fun _ => [])).2 (by decide)⟩

/-- Claim C3 (counterexample): with `min = 1 < 2 = max` but `step = 0`,
`_do_simulation` does not raise the configuration error; it raises the
`ValueError` coming from `range(1, 2, 0)` (no bake is issued either way,
but the claimed error class is wrong). -/
theorem C3_counterexample :
    (do_simulation ⟨1, 2, 0, 0, 0⟩ (fun _ => [])).2
        = Except.error SimError.valueError ∧
    (Except.error SimError.valueError : Except SimError Snapshot)
      ≠ Except.error SimError.configError := by
  constructor
  · rfl
  · simp

/-- Claim C3 (amended): with a non-positive step and `min < max`,
`_do_simulation` still fails before issuing any bake command, but not with
the configuration error: `step = 0` raises `ValueError` (from `range`), and
`step < 0` makes the loop body never run, so `return last_frame_poses`
raises an unbound-local name error. -/
theorem C3_amended (cfg : PhysicsConfig) (poseAt : Int → Snapshot)
    (h1 : cfg.simulation_iterations_increase_step ≤ 0)
    (h2 : cfg.min_simulation_iterations < cfg.max_simulation_iterations) :
    do_simulation cfg poseAt =
      ([SimEvent.setFrameStart 1],
        Except.error (if cfg.simulation_iterations_increase_step = 0
          then SimError.valueError else SimError.nameError)) := by
  rw [do_simulation, if_neg (not_le.mpr h2)]
  by_cases h0 : cfg.simulation_iterations_increase_step = 0
  · rw [pythonRange, if_pos h0]
    simp [h0]
  · rw [pythonRange, if_neg h0]
    have hlen : pythonRangeLen cfg.min_simulation_iterations
        cfg.max_simulation_iterations cfg.simulation_iterations_increase_step
        = 0 := by
      rw [pythonRangeLen, if_neg (not_lt.mpr h1)]
      apply Nat.div_eq_of_lt
      omega
    rw [hlen]
    simp [simLoop, h0]

/-- Witness for `C3_amended` at a concrete input. -/
theorem C3_amended_witness :
    do_simulation ⟨1, 2, 0, 0, 0⟩ (fun _ => []) =
      ([SimEvent.setFrameStart 1], Except.error SimError.valueError) := by
  simpa using C3_amended ⟨1, 2, 0, 0, 0⟩ (fun _ => []) (by decide) (by decide)

/-- Claim C4: with `min < max` and `step > 0`, `_do_simulation` terminates
(it is a total function of the model) and issues at most
`ceil((max - min) / step)` bake commands; the right-hand side below is that
ceiling written with floor division. -/
theorem C4_bake_bound (cfg : PhysicsConfig) (poseAt : Int → Snapshot)
    (h1 : cfg.min_simulation_iterations < cfg.max_simulation_iterations)
    (h2 : 0 < cfg.simulation_iterations_increase_step) :
    countBakes (do_simulation cfg poseAt).1 ≤
      (cfg.max_simulation_iterations - cfg.min_simulation_iterations +
        cfg.simulation_iterations_increase_step - 1).toNat /
        cfg.simulation_iterations_increase_step.toNat := by
  rw [do_simulation, if_neg (not_le.mpr h1), pythonRange, if_neg h2.ne']
  refine le_trans (countBakes_simLoop cfg poseAt _ _ _) ?_
  simp [countBakes, List.length_map, pythonRangeLen, h2]

/-- Witness for `C4_bake_bound` at a concrete input. -/
theorem C4_bake_bound_witness :
    countBakes (do_simulation ⟨100, 1000, 100, 0, 0⟩ (fun _ => [])).1 ≤
      ((1000 : Int) - 100 + 100 - 1).toNat / (100 : Int).toNat :=
  C4_bake_bound ⟨100, 1000, 100, 0, 0⟩ (fun _ => []) (by decide) (by decide)

/-- Claim C10: an empty `prev` snapshot always counts as settled (the per-key
loop body never runs), and consequently, when the scene has no ACTIVE bodies
(every captured snapshot is empty), `_do_simulation` with `min < max` and
`step > 0` converges on its very first iteration: its backend trace is
exactly one bake/free cycle at frame `min_simulation_iterations` and it
returns the snapshot captured at that frame. -/
theorem C10_empty_first_iteration (cfg : PhysicsConfig)
    (poseAt : Int → Snapshot)
    (h1 : cfg.min_simulation_iterations < cfg.max_simulation_iterations)
    (h2 : 0 < cfg.simulation_iterations_increase_step)
    (h3 : ∀ f, poseAt f = []) :
    (∀ (curr : Snapshot) (lt rt : ℚ),
      have_objects_stopped_moving [] curr lt rt = some true) ∧
    do_simulation cfg poseAt =
      ([SimEvent.setFrameStart 1,
        SimEvent.bake cfg.min_simulation_iterations,
        SimEvent.setFrame (cfg.min_simulation_iterations - 1),
        SimEvent.setFrame cfg.min_simulation_iterations,
        SimEvent.freeBake],
        Except.ok (poseAt cfg.min_simulation_iterations)) := by
  refine ⟨fun curr lt rt => rfl, ?_⟩
  rw [do_simulation, if_neg (not_le.mpr h1), pythonRange, if_neg h2.ne']
  have hpos : 1 ≤ pythonRangeLen cfg.min_simulation_iterations
      cfg.max_simulation_iterations cfg.simulation_iterations_increase_step := by
    rw [pythonRangeLen, if_pos h2]
    rw [Nat.one_le_div_iff (by omega)]
    omega
  obtain ⟨k, hk⟩ : ∃ k, pythonRangeLen cfg.min_simulation_iterations
      cfg.max_simulation_iterations cfg.simulation_iterations_increase_step
      = k + 1 := ⟨_, (Nat.succ_pred_eq_of_pos hpos).symm⟩
  rw [hk, List.range_succ_eq_map, List.map_cons]
  simp only [Nat.cast_zero, mul_zero, add_zero]
  simp only [simLoop, h3]
  rfl

/-- Witness for `C10_empty_first_iteration` at a concrete input. -/
theorem C10_empty_first_iteration_witness :
    (∀ (curr : Snapshot) (lt rt : ℚ),
      have_objects_stopped_moving [] curr lt rt = some true) ∧
    do_simulation ⟨1, 2, 1, 0, 0⟩ (fun _ => []) =
      ([SimEvent.setFrameStart 1, SimEvent.bake 1, SimEvent.setFrame 0,
        SimEvent.setFrame 1, SimEvent.freeBake], Except.ok []) := by
  simpa using C10_empty_first_iteration ⟨1, 2, 1, 0, 0⟩ (fun _ => [])
    (by decide) (by decide) (fun _ => rfl)

/-- A Blender scene object, restricted to the attributes the module touches.
`rigid_body` is `none` when the object has no rigidbody element (accessing
`obj.rigid_body.type` then raises in Python); when present it holds the
rigid-body type string (`"ACTIVE"` or `"PASSIVE"`, as assigned from the
`"physics"` custom property by `_add_rigidbody`).  `matrix_world_translation`
and `matrix_world_euler` model `matrix_world.translation` and
`matrix_world.to_euler()`; `location` and `rotation_euler` are the directly
settable transform attributes written by `_set_pose`. -/
structure SceneObject where
  name : String
  type : String
  physics : String
  rigid_body : Option String
  collision_shape : Option String
  matrix_world_translation : Vec3
  matrix_world_euler : Vec3
  location : Vec3
  rotation_euler : Vec3
deriving DecidableEq, Repr

/-- Models `bpy.context.scene.objects[name]`: Blender keys object collections by
name; `none` models the `KeyError` for a missing name. -/
def objectsLookup (scene : List SceneObject) (name : String) : Option SceneObject :=
  scene.find? fun o => o.name == name

/-- Python's `str.upper()` on ASCII identifiers, written over the character
list (`String.map` itself does not reduce in the kernel). -/
def stringUpper (s : String) : String :=
  ⟨s.data.map Char.toUpper⟩

/-- Models `PhysicsPositioning._add_rigidbody`: every `MESH`-typed object gets a
rigidbody whose type is `obj["physics"].upper()` and a `MESH` collision
shape; other objects are untouched. -/
def add_rigidbody (scene : List SceneObject) : List SceneObject :=
  scene.map fun o =>
    if o.type = "MESH" then
      { o with rigid_body := some (stringUpper o.physics),
               collision_shape := some "MESH" }
    else o

/-- Models `PhysicsPositioning._remove_rigidbody`: removes the rigidbody element
from every `MESH`-typed object. -/
def remove_rigidbody (scene : List SceneObject) : List SceneObject :=
  scene.map fun o =>
    if o.type = "MESH" then { o with rigid_body := none } else o

/-- The `for obj in bpy.context.scene.objects` loop of `_get_pose` over the
remaining objects, with the whole scene kept for the name lookup.  A `MESH`
object without a rigidbody makes `obj.rigid_body.type` raise (`none`); an
`ACTIVE` mesh contributes `{'location': matrix_world.translation,
'rotation': Vector(matrix_world.to_euler())}` keyed by its name. -/
def get_pose_go (scene : List SceneObject) : List SceneObject → Option Snapshot
  | [] => some []
  | obj :: rest =>
    if obj.type = "MESH" then
      match obj.rigid_body with
      | none => none
      | some rbType =>
        if rbType = "ACTIVE" then
          match objectsLookup scene obj.name with
          | none => none
          | some o =>
            (get_pose_go scene rest).map fun s =>
              (obj.name, ⟨o.matrix_world_translation, o.matrix_world_euler⟩) :: s
        else get_pose_go scene rest
    else get_pose_go scene rest

/-- Models `PhysicsPositioning._get_pose`: snapshot of all `ACTIVE` mesh rigid
bodies in scene order. -/
def get_pose (scene : List SceneObject) : Option Snapshot :=
  get_pose_go scene scene

/-- Assignment of `obj.location` and `obj.rotation_euler` from one snapshot
entry. -/
def setObjectPose (o : SceneObject) (p : Pose) : SceneObject :=
  { o with location := p.location, rotation_euler := p.rotation }

/-- Models `bpy.context.scene.objects[obj_name].location = ...` and
`....rotation_euler = ...`: updates the (first) object with the given name, `none` on `KeyError`. -/
def setFirst : List SceneObject → String → Pose → Option (List SceneObject)
  | [], _, _ => none
  | o :: rest, name, p =>
    if o.name = name then some (setObjectPose o p :: rest)
    else (setFirst rest name p).map fun r => o :: r

/-- The `for obj_name in pose_dict` loop of `_set_pose`: applies the entries
in order; on a `KeyError` the scene keeps the updates already applied and the
error flag (`none`) is returned alongside it. -/
def set_pose_go : List SceneObject → Snapshot → List SceneObject × Option Unit
  | scene, [] => (scene, some ())
  | scene, (obj_name, p) :: rest =>
    match setFirst scene obj_name p with
    | none => (scene, none)
    | some scene2 => set_pose_go scene2 rest

/-- Models `PhysicsPositioning._set_pose(pose_dict)`: returns the scene after the
applied updates and `some ()` on success / `none` when a key named no live
scene object (`ObjectNotFoundError`). -/
def set_pose (scene : List SceneObject) (pose_dict : Snapshot) :
    List SceneObject × Option Unit :=
  set_pose_go scene pose_dict

/-- Errors `PhysicsPositioning.run` can propagate. -/
inductive RunError where
  /-- an exception propagated out of `_do_simulation`. -/
  | simError (e : SimError)
  /-- Models the `KeyError` from `_set_pose` (the spec's `ObjectNotFoundError`). -/
  | objectNotFound
deriving DecidableEq, Repr

/-- Models `PhysicsPositioning.run`: `_add_rigidbody`; `_do_simulation`;
`_set_pose`; `_remove_rigidbody` — straight-line, with no try/finally, so an
exception anywhere leaves the scene as it was at the raise point.  Returns
the final scene state and the outcome. -/
def PhysicsPositioning_run (cfg : PhysicsConfig) (scene : List SceneObject)
    (poseAt : Int → Snapshot) : List SceneObject × Except RunError Unit :=
  let scene1 := add_rigidbody scene
  match (do_simulation cfg poseAt).2 with
  | Except.error e => (scene1, Except.error (RunError.simError e))
  | Except.ok obj_poses =>
    match set_pose scene1 obj_poses with
    | (scene2, none) => (scene2, Except.error RunError.objectNotFound)
    | (scene2, some _) => (remove_rigidbody scene2, Except.ok ())

lemma get_pose_go_keys (scene : List SceneObject) :
    ∀ l : List SceneObject, (∀ o ∈ l, o ∈ scene) →
      (∀ o ∈ l, o.type = "MESH" → o.rigid_body.isSome) →
      ∃ s, get_pose_go scene l = some s ∧
        s.map Prod.fst =
          (l.filter fun o =>
            o.type == "MESH" && o.rigid_body == some "ACTIVE").map
            SceneObject.name
  | [], _, _ => ⟨[], rfl, rfl⟩
  | obj :: rest, hin, hrb => by
    have hin2 : ∀ o ∈ rest, o ∈ scene := fun o ho => hin o (List.mem_cons_of_mem _ ho)
    have hrb2 : ∀ o ∈ rest, o.type = "MESH" → o.rigid_body.isSome :=
      fun o ho => hrb o (List.mem_cons_of_mem _ ho)
    obtain ⟨s, hs, hkeys⟩ := get_pose_go_keys scene rest hin2 hrb2
    by_cases ht : obj.type = "MESH"
    · obtain ⟨rbType, hrbt⟩ : ∃ rbType, obj.rigid_body = some rbType :=
        Option.isSome_iff_exists.mp (hrb obj (List.mem_cons_self _ _) ht)
      by_cases ha : rbType = "ACTIVE"
      · obtain ⟨o, ho⟩ : ∃ o, objectsLookup scene obj.name = some o := by
          apply Option.isSome_iff_exists.mp
          rw [objectsLookup, List.find?_isSome]
          exact ⟨obj, hin obj (List.mem_cons_self _ _), by simp⟩
        refine ⟨(obj.name, ⟨o.matrix_world_translation, o.matrix_world_euler⟩) :: s, ?_, ?_⟩
        · rw [get_pose_go, if_pos ht, hrbt]
          simp only [if_pos ha, ho, hs, Option.map_some']
        · rw [List.filter_cons_of_pos (by simp [ht, hrbt, ha])]
          simp [hkeys]
      · refine ⟨s, ?_, ?_⟩
        · rw [get_pose_go, if_pos ht, hrbt]
          simp only [if_neg ha, hs]
        · rw [List.filter_cons_of_neg (by simp [hrbt, ha])]
          exact hkeys
    · refine ⟨s, ?_, ?_⟩
      · rw [get_pose_go, if_neg ht]
        exact hs
      · rw [List.filter_cons_of_neg (by simp [ht])]
        exact hkeys

/-- Claim C5: when every mesh object carries a rigidbody (all are enrolled),
`_get_pose` succeeds and its snapshot's keys are exactly the names of the
`MESH` objects whose rigid-body type is `ACTIVE`, in scene order — no
`PASSIVE` body and no non-mesh object contributes a key. -/
theorem C5_active_keys (scene : List SceneObject)
    (h : ∀ o ∈ scene, o.type = "MESH" → o.rigid_body.isSome) :
    ∃ s, get_pose scene = some s ∧
      s.map Prod.fst =
        (scene.filter fun o =>
          o.type == "MESH" && o.rigid_body == some "ACTIVE").map
          SceneObject.name :=
  get_pose_go_keys scene scene (fun _ ho => ho) h

/-- Witness for `C5_active_keys`: one ACTIVE cube, one PASSIVE floor plane
and one non-mesh light; the snapshot has exactly the cube's key. -/
theorem C5_active_keys_witness :
    ∃ s, get_pose
      [⟨"cube", "MESH", "active", some "ACTIVE", some "MESH",
        ⟨0, 0, 0⟩, ⟨0, 0, 0⟩, ⟨0, 0, 0⟩, ⟨0, 0, 0⟩⟩,
       ⟨"plane", "MESH", "passive", some "PASSIVE", some "MESH",
        ⟨0, 0, 0⟩, ⟨0, 0, 0⟩, ⟨0, 0, 0⟩, ⟨0, 0, 0⟩⟩,
       ⟨"lamp", "LIGHT", "passive", none, none,
        ⟨0, 0, 0⟩, ⟨0, 0, 0⟩, ⟨0, 0, 0⟩, ⟨0, 0, 0⟩⟩] = some s ∧
      s.map Prod.fst =
        ([⟨"cube", "MESH", "active", some "ACTIVE", some "MESH",
          ⟨0, 0, 0⟩, ⟨0, 0, 0⟩, ⟨0, 0, 0⟩, ⟨0, 0, 0⟩⟩,
         ⟨"plane", "MESH", "passive", some "PASSIVE", some "MESH",
          ⟨0, 0, 0⟩, ⟨0, 0, 0⟩, ⟨0, 0, 0⟩, ⟨0, 0, 0⟩⟩,
         ⟨"lamp", "LIGHT", "passive", none, none,
          ⟨0, 0, 0⟩, ⟨0, 0, 0⟩, ⟨0, 0, 0⟩, ⟨0, 0, 0⟩⟩].filter fun o =>
            o.type == "MESH" && o.rigid_body == some "ACTIVE").map
          SceneObject.name :=
  C5_active_keys _ (by decide)

lemma setFirst_isSome_iff (n : String) (p : Pose) :
    ∀ scene : List SceneObject,
      (setFirst scene n p).isSome ↔ n ∈ scene.map SceneObject.name
  | [] => by simp [setFirst]
  | o :: rest => by
    by_cases hn : o.name = n
    · simp [setFirst, if_pos hn, hn]
    · rw [setFirst, if_neg hn]
      simp only [List.map_cons, List.mem_cons, Option.isSome_map']
      rw [setFirst_isSome_iff n p rest]
      constructor
      · exact Or.inr
      · rintro (h | h)
        · exact absurd h.symm hn
        · exact h

lemma setFirst_names (n : String) (p : Pose) :
    ∀ scene scene2 : List SceneObject, setFirst scene n p = some scene2 →
      scene2.map SceneObject.name = scene.map SceneObject.name
  | [], _, h => by simp [setFirst] at h
  | o :: rest, scene2, h => by
    by_cases hn : o.name = n
    · rw [setFirst, if_pos hn, Option.some_inj] at h
      subst h
      rfl
    · rw [setFirst, if_neg hn] at h
      cases hr : setFirst rest n p with
      | none => rw [hr] at h; simp at h
      | some r2 =>
        rw [hr, Option.map_some', Option.some_inj] at h
        subst h
        simp [setFirst_names n p rest r2 hr]

lemma set_pose_go_names :
    ∀ (poses : Snapshot) (scene : List SceneObject),
      ((set_pose_go scene poses).1).map SceneObject.name =
        scene.map SceneObject.name
  | [], scene => rfl
  | (n, p) :: rest, scene => by
    rw [set_pose_go]
    cases hf : setFirst scene n p with
    | none => rfl
    | some scene2 =>
      rw [set_pose_go_names rest scene2, setFirst_names n p scene scene2 hf]

lemma set_pose_go_none_iff :
    ∀ (poses : Snapshot) (scene : List SceneObject),
      (set_pose_go scene poses).2 = none ↔
        ∃ np ∈ poses, np.1 ∉ scene.map SceneObject.name
  | [], scene => by simp [set_pose_go]
  | (n, p) :: rest, scene => by
    rw [set_pose_go]
    cases hf : setFirst scene n p with
    | none =>
      have hnotin : n ∉ scene.map SceneObject.name := by
        rw [← setFirst_isSome_iff n p scene, hf]
        simp
      simp only [iff_true_intro rfl, true_iff]
      exact ⟨(n, p), List.mem_cons_self _ _, hnotin⟩
    | some scene2 =>
      have hin : n ∈ scene.map SceneObject.name := by
        rw [← setFirst_isSome_iff n p scene, hf]
        rfl
      rw [set_pose_go_none_iff rest scene2]
      have hnames := setFirst_names n p scene scene2 hf
      constructor
      · rintro ⟨np, hm, hnot⟩
        exact ⟨np, List.mem_cons_of_mem _ hm, by rwa [hnames] at hnot⟩
      · rintro ⟨np, hm, hnot⟩
        rcases List.mem_cons.mp hm with h | h
        · subst h
          exact absurd hin hnot
        · exact ⟨np, h, by rwa [hnames]⟩

/-- Claim C8: `_set_pose` raises `ObjectNotFoundError` (the `KeyError` from
indexing `bpy.context.scene.objects`) iff some snapshot key names no live
scene object; when every key names a live object it succeeds, returning
nothing. -/
theorem C8_object_not_found (scene : List SceneObject) (poses : Snapshot) :
    ((∃ np ∈ poses, np.1 ∉ scene.map SceneObject.name) →
      (set_pose scene poses).2 = none) ∧
    ((∀ np ∈ poses, np.1 ∈ scene.map SceneObject.name) →
      (set_pose scene poses).2 = some ()) := by
  constructor
  · intro h
    exact (set_pose_go_none_iff poses scene).mpr h
  · intro h
    cases ho : (set_pose_go scene poses).2 with
    | none =>
      obtain ⟨np, hm, hn⟩ := (set_pose_go_none_iff poses scene).mp ho
      exact absurd (h np hm) hn
    | some u =>
      cases u
      exact ho

/-- Witness for `C8_object_not_found` at concrete inputs: a snapshot with a
dangling key fails, a snapshot whose key is live succeeds. -/
theorem C8_object_not_found_witness :
    (set_pose [] [("ghost", ⟨⟨0, 0, 0⟩, ⟨0, 0, 0⟩⟩)]).2 = none ∧
    (set_pose
      [⟨"cube", "MESH", "active", some "ACTIVE", some "MESH",
        ⟨0, 0, 0⟩, ⟨0, 0, 0⟩, ⟨0, 0, 0⟩, ⟨0, 0, 0⟩⟩]
      [("cube", ⟨⟨1, 2, 3⟩, ⟨4, 5, 6⟩⟩)]).2 = some () :=
  ⟨(C8_object_not_found [] _).1 (by simp),
    (C8_object_not_found _ _).2 (by simp)⟩

lemma setObjectPose_name (o : SceneObject) (p : Pose) :
    (setObjectPose o p).name = o.name := rfl

lemma setObjectPose_idem (o : SceneObject) (p : Pose) :
    setObjectPose (setObjectPose o p) p = setObjectPose o p := rfl

lemma setFirst_self (n : String) (p : Pose) :
    ∀ scene scene2 : List SceneObject, setFirst scene n p = some scene2 →
      setFirst scene2 n p = some scene2
  | [], _, h => by simp [setFirst] at h
  | o :: rest, scene2, h => by
    by_cases hn : o.name = n
    · rw [setFirst, if_pos hn, Option.some_inj] at h
      subst h
      rw [setFirst, if_pos ((setObjectPose_name o p).trans hn), setObjectPose_idem]
    · rw [setFirst, if_neg hn] at h
      cases hr : setFirst rest n p with
      | none => rw [hr] at h; simp at h
      | some r2 =>
        rw [hr, Option.map_some', Option.some_inj] at h
        subst h
        rw [setFirst, if_neg hn, setFirst_self n p rest r2 hr]
        rfl

lemma setFirst_keeps (n m : String) (p q : Pose) (hnm : n ≠ m) :
    ∀ scene scene1 : List SceneObject,
      setFirst scene n p = some scene →
      setFirst scene m q = some scene1 →
      setFirst scene1 n p = some scene1
  | [], _, _, hm => by simp [setFirst] at hm
  | o :: rest, scene1, hself, hm => by
    by_cases h1 : o.name = m
    · rw [setFirst, if_pos h1, Option.some_inj] at hm
      subst hm
      have hon : ¬ o.name = n := fun he => hnm (he.symm.trans h1)
      rw [setFirst, if_neg hon] at hself
      have hrest : setFirst rest n p = some rest := by
        cases hr : setFirst rest n p with
        | none => rw [hr] at hself; simp at hself
        | some r2 =>
          rw [hr, Option.map_some', Option.some_inj, List.cons.injEq] at hself
          rw [hself.2]
      have hon2 : ¬ (setObjectPose o q).name = n := by
        rw [setObjectPose_name]
        exact hon
      rw [setFirst, if_neg hon2, hrest, Option.map_some']
    · rw [setFirst, if_neg h1] at hm
      cases hq : setFirst rest m q with
      | none => rw [hq] at hm; simp at hm
      | some r1 =>
        rw [hq, Option.map_some', Option.some_inj] at hm
        subst hm
        by_cases h2 : o.name = n
        · rw [setFirst, if_pos h2, Option.some_inj, List.cons.injEq] at hself
          rw [setFirst, if_pos h2, hself.1]
        · rw [setFirst, if_neg h2] at hself
          have hrest : setFirst rest n p = some rest := by
            cases hr : setFirst rest n p with
            | none => rw [hr] at hself; simp at hself
            | some r2 =>
              rw [hr, Option.map_some', Option.some_inj,
                List.cons.injEq] at hself
              rw [hself.2]
          rw [setFirst, if_neg h2,
            setFirst_keeps n m p q hnm rest r1 hrest hq, Option.map_some']

lemma set_pose_go_keeps (n : String) (p : Pose) :
    ∀ (poses : Snapshot) (scene : List SceneObject),
      (∀ np ∈ poses, np.1 ≠ n) →
      setFirst scene n p = some scene →
      setFirst (set_pose_go scene poses).1 n p =
        some (set_pose_go scene poses).1
  | [], scene, _, hself => hself
  | (m, q) :: rest, scene, hne, hself => by
    rw [set_pose_go]
    cases hf : setFirst scene m q with
    | none => exact hself
    | some scene2 =>
      have hnm : n ≠ m := fun he =>
        hne (m, q) (List.mem_cons_self _ _) he.symm
      have hself2 : setFirst scene2 n p = some scene2 :=
        setFirst_keeps n m p q hnm scene scene2 hself hf
      exact set_pose_go_keeps n p rest scene2
        (fun np hm => hne np (List.mem_cons_of_mem _ hm)) hself2

lemma set_pose_go_idem :
    ∀ (poses : Snapshot) (scene : List SceneObject),
      (poses.map Prod.fst).Nodup →
      (set_pose_go scene poses).2 = some () →
      set_pose_go (set_pose_go scene poses).1 poses =
        ((set_pose_go scene poses).1, some ())
  | [], _, _, _ => rfl
  | (n, p) :: rest, scene, hn, hsucc => by
    rw [List.map_cons, List.nodup_cons] at hn
    cases hf : setFirst scene n p with
    | none =>
      rw [set_pose_go, hf] at hsucc
      simp at hsucc
    | some scene1 =>
      rw [set_pose_go, hf] at hsucc
      have hself1 : setFirst scene1 n p = some scene1 :=
        setFirst_self n p scene scene1 hf
      have hkeys : ∀ np ∈ rest, np.1 ≠ n := by
        intro np hm he
        have hmem : np.1 ∈ rest.map Prod.fst := List.mem_map_of_mem Prod.fst hm
        rw [he] at hmem
        exact hn.1 hmem
      have hself2 := set_pose_go_keeps n p rest scene1 hkeys hself1
      have houter : set_pose_go scene ((n, p) :: rest) = set_pose_go scene1 rest := by
        rw [set_pose_go, hf]
      rw [houter, set_pose_go, hself2]
      exact set_pose_go_idem rest scene1 hn.2 hsucc

/-- Claim C7: applying a snapshot (duplicate-free keys, as any Python dict
has) whose every key names a live scene object twice with `_set_pose` leaves
the scene exactly as a single application does, and the second application
also succeeds. -/
theorem C7_idempotent (scene : List SceneObject) (poses : Snapshot)
    (hn : (poses.map Prod.fst).Nodup)
    (hl : ∀ np ∈ poses, np.1 ∈ scene.map SceneObject.name) :
    set_pose (set_pose scene poses).1 poses =
      ((set_pose scene poses).1, some ()) := by
  have hsucc : (set_pose_go scene poses).2 = some () := by
    cases ho : (set_pose_go scene poses).2 with
    | none =>
      obtain ⟨np, hm, hnot⟩ := (set_pose_go_none_iff poses scene).mp ho
      exact absurd (hl np hm) hnot
    | some u => cases u; rfl
  exact set_pose_go_idem poses scene hn hsucc

/-- Witness for `C7_idempotent` at a concrete input. -/
theorem C7_idempotent_witness :
    set_pose
      (set_pose
        [⟨"cube", "MESH", "active", some "ACTIVE", some "MESH",
          ⟨0, 0, 0⟩, ⟨0, 0, 0⟩, ⟨0, 0, 0⟩, ⟨0, 0, 0⟩⟩]
        [("cube", ⟨⟨1, 2, 3⟩, ⟨4, 5, 6⟩⟩)]).1
      [("cube", ⟨⟨1, 2, 3⟩, ⟨4, 5, 6⟩⟩)] =
    ((set_pose
        [⟨"cube", "MESH", "active", some "ACTIVE", some "MESH",
          ⟨0, 0, 0⟩, ⟨0, 0, 0⟩, ⟨0, 0, 0⟩, ⟨0, 0, 0⟩⟩]
        [("cube", ⟨⟨1, 2, 3⟩, ⟨4, 5, 6⟩⟩)]).1, some ()) :=
  C7_idempotent _ _ (by simp) (by simp)

lemma add_rigidbody_mesh (scene : List SceneObject) :
    ∀ o ∈ add_rigidbody scene, o.type = "MESH" → o.rigid_body ≠ none := by
  intro o ho
  obtain ⟨x, _, hfx⟩ := List.mem_map.mp ho
  by_cases hx : x.type = "MESH"
  · rw [if_pos hx] at hfx
    subst hfx
    intro _
    simp
  · rw [if_neg hx] at hfx
    subst hfx
    intro ht
    exact absurd ht hx

lemma remove_rigidbody_mesh (scene : List SceneObject) :
    ∀ o ∈ remove_rigidbody scene, o.type = "MESH" → o.rigid_body = none := by
  intro o ho
  obtain ⟨x, _, hfx⟩ := List.mem_map.mp ho
  by_cases hx : x.type = "MESH"
  · rw [if_pos hx] at hfx
    subst hfx
    intro _
    rfl
  · rw [if_neg hx] at hfx
    subst hfx
    intro ht
    exact absurd ht hx

lemma setFirst_tyrb (n : String) (p : Pose) :
    ∀ scene scene2 : List SceneObject, setFirst scene n p = some scene2 →
      scene2.map (fun o => (o.type, o.rigid_body)) =
        scene.map (fun o => (o.type, o.rigid_body))
  | [], _, h => by simp [setFirst] at h
  | o :: rest, scene2, h => by
    by_cases hn : o.name = n
    · rw [setFirst, if_pos hn, Option.some_inj] at h
      subst h
      rfl
    · rw [setFirst, if_neg hn] at h
      cases hr : setFirst rest n p with
      | none => rw [hr] at h; simp at h
      | some r2 =>
        rw [hr, Option.map_some', Option.some_inj] at h
        subst h
        simp [setFirst_tyrb n p rest r2 hr]

lemma set_pose_go_tyrb :
    ∀ (poses : Snapshot) (scene : List SceneObject),
      ((set_pose_go scene poses).1).map (fun o => (o.type, o.rigid_body)) =
        scene.map (fun o => (o.type, o.rigid_body))
  | [], _ => rfl
  | (n, p) :: rest, scene => by
    rw [set_pose_go]
    cases hf : setFirst scene n p with
    | none => rfl
    | some scene2 =>
      rw [set_pose_go_tyrb rest scene2, setFirst_tyrb n p scene scene2 hf]

lemma mesh_rb_of_map_eq (a b : List SceneObject) (P : Option String → Prop)
    (hmap : a.map (fun o => (o.type, o.rigid_body)) =
      b.map (fun o => (o.type, o.rigid_body)))
    (hb : ∀ o ∈ b, o.type = "MESH" → P o.rigid_body) :
    ∀ o ∈ a, o.type = "MESH" → P o.rigid_body := by
  intro o ho ht
  have hmem : (o.type, o.rigid_body) ∈
      a.map (fun o => (o.type, o.rigid_body)) :=
    List.mem_map_of_mem _ ho
  rw [hmap] at hmem
  obtain ⟨x, hx, hfx⟩ := List.mem_map.mp hmem
  have h1 : x.type = o.type := congrArg Prod.fst hfx
  have h2 : x.rigid_body = o.rigid_body := congrArg Prod.snd hfx
  rw [← h2]
  exact hb x hx (h1.trans ht)

/-- Claim C6 (counterexample): with one mesh object and a configuration whose
`min ≥ max`, `run` propagates the configuration error from `_do_simulation`
and — since there is no try/finally — never reaches `_remove_rigidbody`: the
final scene still carries the rigidbody added at the start. -/
theorem C6_counterexample :
    PhysicsPositioning_run ⟨5, 3, 1, 0, 0⟩
        [⟨"cube", "MESH", "ACTIVE", none, none,
          ⟨0, 0, 0⟩, ⟨0, 0, 0⟩, ⟨0, 0, 0⟩, ⟨0, 0, 0⟩⟩]
        (fun _ => []) =
      ([⟨"cube", "MESH", "ACTIVE", some "ACTIVE", some "MESH",
          ⟨0, 0, 0⟩, ⟨0, 0, 0⟩, ⟨0, 0, 0⟩, ⟨0, 0, 0⟩⟩],
        Except.error (RunError.simError SimError.configError)) ∧
    (some "ACTIVE" : Option String) ≠ none := by
  constructor
  · rfl
  · simp

/-- Claim C6 (amended): mesh objects are de-enrolled (rigidbody removed) at
the end of `run` only when the whole run succeeds; on any propagated error
(`run` has no try/finally) every mesh object still carries a rigidbody in
the final scene state. -/
theorem C6_amended (cfg : PhysicsConfig) (scene : List SceneObject)
    (poseAt : Int → Snapshot) :
    ((PhysicsPositioning_run cfg scene poseAt).2 = Except.ok () →
      ∀ o ∈ (PhysicsPositioning_run cfg scene poseAt).1,
        o.type = "MESH" → o.rigid_body = none) ∧
    ((PhysicsPositioning_run cfg scene poseAt).2 ≠ Except.ok () →
      ∀ o ∈ (PhysicsPositioning_run cfg scene poseAt).1,
        o.type = "MESH" → o.rigid_body ≠ none) := by
  cases hds : (do_simulation cfg poseAt).2 with
  | error e =>
    have hrun : PhysicsPositioning_run cfg scene poseAt =
        (add_rigidbody scene, Except.error (RunError.simError e)) := by
      simp only [PhysicsPositioning_run, hds]
    rw [hrun]
    exact ⟨fun hok => absurd hok (by simp), fun _ => add_rigidbody_mesh scene⟩
  | ok poses =>
    cases hsp : set_pose (add_rigidbody scene) poses with
    | mk scene2 res =>
      cases res with
      | none =>
        have hrun : PhysicsPositioning_run cfg scene poseAt =
            (scene2, Except.error RunError.objectNotFound) := by
          simp only [PhysicsPositioning_run, hds, hsp]
        rw [hrun]
        refine ⟨fun hok => absurd hok (by simp), fun _ => ?_⟩
        have htyrb : scene2.map (fun o => (o.type, o.rigid_body)) =
            (add_rigidbody scene).map (fun o => (o.type, o.rigid_body)) := by
          have hgo := set_pose_go_tyrb poses (add_rigidbody scene)
          rw [show (set_pose_go (add_rigidbody scene) poses).1 = scene2 from
            congrArg Prod.fst hsp] at hgo
          exact hgo
        exact mesh_rb_of_map_eq scene2 (add_rigidbody scene)
          (fun rb => rb ≠ none) htyrb (add_rigidbody_mesh scene)
      | some u =>
        cases u
        have hrun : PhysicsPositioning_run cfg scene poseAt =
            (remove_rigidbody scene2, Except.ok ()) := by
          simp only [PhysicsPositioning_run, hds, hsp]
        rw [hrun]
        exact ⟨fun _ => remove_rigidbody_mesh scene2,
          fun hne => absurd rfl hne⟩

/-- Witness for `C6_amended`, applied on the success path (objects end
de-enrolled) and on a config-error path (objects stay enrolled). -/
theorem C6_amended_witness :
    (∀ o ∈ (PhysicsPositioning_run ⟨1, 2, 1, 0, 0⟩
        [⟨"cube", "MESH", "ACTIVE", none, none,
          ⟨0, 0, 0⟩, ⟨0, 0, 0⟩, ⟨0, 0, 0⟩, ⟨0, 0, 0⟩⟩]
        (fun _ => [])).1, o.type = "MESH" → o.rigid_body = none) ∧
    (∀ o ∈ (PhysicsPositioning_run ⟨5, 3, 1, 0, 0⟩
        [⟨"cube", "MESH", "ACTIVE", none, none,
          ⟨0, 0, 0⟩, ⟨0, 0, 0⟩, ⟨0, 0, 0⟩, ⟨0, 0, 0⟩⟩]
        (fun _ => [])).1, o.type = "MESH" → o.rigid_body ≠ none) :=
  ⟨(C6_amended ⟨1, 2, 1, 0, 0⟩ _ _).1 rfl,
    (C6_amended ⟨5, 3, 1, 0, 0⟩ _ _).2 (fun h => Except.noConfusion h)⟩
